import Mathlib

/-!
Verification of the Severity Normalization + Insight Clustering Engine.

The definitions below are a shallow embedding of the TypeScript sources
`src/lib/utils/normalize-severity.ts` (severity normalization and keyword
boosting) and `src/lib/intelligence/insight-engine.ts` (classification,
clustering, cluster metrics, trends, alert gating).  JavaScript numbers
are modelled as rationals (`ℚ`), `Math.round` as `⌊x + 1/2⌋`,
`Math.log10` as an arbitrary function parameter (it is only consumed,
never inspected), timestamps as rational millisecond counts, and the
database as explicit lists of records.
-/

namespace HackTheStack

/-- JavaScript `Math.round`: round half toward positive infinity. -/
def jsRound (x : ℚ) : ℤ := ⌊x + 1/2⌋

/-- JavaScript `Math.max(a, b)` on numbers. -/
def jsMax (a b : ℚ) : ℚ := max a b

/-- JavaScript `Math.min(a, b)` on numbers. -/
def jsMin (a b : ℚ) : ℚ := min a b

/-- JavaScript `Math.max(...xs)` over a non-empty spread; the `[]` case is unreachable
in the embedded code (guarded by emptiness checks) and is given junk value 0. -/
def listMax : List ℚ → ℚ
  | [] => 0
  | x :: xs => xs.foldl max x

/-- JavaScript `Math.min(...xs)` over a non-empty spread; junk value 0 on `[]`. -/
def listMin : List ℚ → ℚ
  | [] => 0
  | x :: xs => xs.foldl min x

/-- JavaScript `[...new Set(xs)]`: deduplicate keeping the first occurrence of each
element, preserving insertion order. -/
def jsSetDedup {α : Type} [DecidableEq α] : List α → List α
  | [] => []
  | x :: xs => x :: (jsSetDedup xs).filter (· ≠ x)

-- ===========================================================================
-- Severity normalization (normalize-severity.ts)
-- ===========================================================================

/-- The `FeedbackSource` enumeration from the data model. -/
inductive FeedbackSource
  | app_store | product_hunt | reddit | quora | stack_overflow | manual_upload | custom
  deriving DecidableEq, Repr

/-- The numeric and boolean fields of `FeedbackMeta` that the severity
formulas consume; absent fields are `none`. -/
structure FeedbackMeta where
  star_rating : Option ℚ := none
  upvotes : Option ℚ := none
  maker_reply : Option Bool := none
  reddit_score : Option ℚ := none
  comment_count : Option ℚ := none
  subreddit : Option String := none
  so_score : Option ℚ := none
  view_count : Option ℚ := none
  is_accepted : Option Bool := none
  quora_upvotes : Option ℚ := none
  follower_count : Option ℚ := none
  deriving DecidableEq, Repr

/-- The options record of `normalizeSeverity`. -/
structure NormalizeOptions where
  sentimentScore : Option ℚ := none
  postedAt : Option ℚ := none
  content : Option String := none
  deriving DecidableEq, Repr

/-- The `SEVERITY_WEIGHTS.APP_STORE.STAR_TO_SEVERITY` record lookup.  Keys other
than 1–5 are unreachable behind the range guard; they are given junk value 0
(in JS such a lookup would yield `undefined`). -/
def STAR_TO_SEVERITY (n : ℤ) : ℚ :=
  if n = 1 then 95
  else if n = 2 then 75
  else if n = 3 then 50
  else if n = 4 then 25
  else if n = 5 then 10
  else 0

/-- The `SEVERITY_WEIGHTS.REDDIT.SUBREDDIT_BOOSTS` record lookup (by lowercased
subreddit name). -/
def SUBREDDIT_BOOSTS (s : String) : Option ℚ :=
  if s = "reactjs" then some 1.2
  else if s = "webdev" then some 1.1
  else if s = "programming" then some 1.0
  else none

/-- Embeds `normalizeAppStoreSeverity`. -/
def normalizeAppStoreSeverity (meta : FeedbackMeta) : ℚ :=
  match meta.star_rating with
  | some r => if r ≠ 0 ∧ 1 ≤ r ∧ r ≤ 5 then STAR_TO_SEVERITY (jsRound r) else 50
  | none => 50

/-- Embeds `normalizeProductHuntSeverity`. -/
def normalizeProductHuntSeverity (meta : FeedbackMeta) : ℚ :=
  let upvotes := meta.upvotes.getD 0
  let maker_reply := meta.maker_reply.getD false
  let severity : ℚ := 40
  let upvoteContribution := jsMin (upvotes * 0.8) 40
  let severity := severity + upvoteContribution
  if maker_reply then severity - 10 else severity

/-- Embeds `normalizeRedditSeverity`; `lg` stands for `Math.log10`. -/
def normalizeRedditSeverity (lg : ℚ → ℚ) (meta : FeedbackMeta) : ℚ :=
  let reddit_score := meta.reddit_score.getD 0
  let comment_count := meta.comment_count.getD 0
  let severity : ℚ := 35
  let severity := if reddit_score > 0 then severity + lg (reddit_score + 1) * 8 else severity
  let commentContribution := jsMin (comment_count * 0.3) 20
  let severity := severity + commentContribution
  match meta.subreddit with
  | some sub =>
      match SUBREDDIT_BOOSTS (String.mk (sub.data.map Char.toLower)) with
      | some boost => severity * boost
      | none => severity
  | none => severity

/-- Embeds `normalizeStackOverflowSeverity`. -/
def normalizeStackOverflowSeverity (meta : FeedbackMeta) : ℚ :=
  let so_score := meta.so_score.getD 0
  let view_count := meta.view_count.getD 0
  let accepted := meta.is_accepted.getD false
  let severity : ℚ := 30
  let severity := severity + so_score * 3
  let viewContribution := jsMin (view_count * 0.005) 30
  let severity := severity + viewContribution
  if accepted then severity - 25 else severity

/-- Embeds `normalizeQuoraSeverity`. -/
def normalizeQuoraSeverity (meta : FeedbackMeta) : ℚ :=
  let quora_upvotes := meta.quora_upvotes.getD 0
  let follower_count := meta.follower_count.getD 0
  let severity : ℚ := 35
  let upvoteContribution := jsMin (quora_upvotes * 0.5) 35
  let severity := severity + upvoteContribution
  if follower_count ≥ 1000 then severity + 10 else severity

/-- The table `BASE_KEYWORD_WEIGHTS` as an association list, in source order. -/
def BASE_KEYWORD_WEIGHTS : List (String × ℚ) :=
  [("crash", 40), ("panic", 40), ("fatal", 40), ("data loss", 40),
   ("security", 40), ("breach", 40), ("emergency", 40), ("critical", 30),
   ("error", 20), ("exception", 20), ("fail", 20), ("timeout", 20),
   ("slow", 15), ("stuck", 15), ("urgent", 20), ("broken", 15), ("bug", 10),
   ("issue", 5), ("problem", 5), ("weird", 5)]

/-- Does `hay` start with `needle` (character-wise)? -/
def startsWith : List Char → List Char → Bool
  | _, [] => true
  | [], _ :: _ => false
  | c :: cs, d :: ds => c = d && startsWith cs ds

/-- JavaScript `hay.includes(needle)`: contiguous-substring occurrence. -/
def hasSub (needle : List Char) : List Char → Bool
  | [] => needle.isEmpty
  | c :: t => startsWith (c :: t) needle || hasSub needle t

/-- JavaScript `content.toLowerCase().includes(keyword)` for an ASCII keyword. -/
def lowerContains (content : String) (keyword : String) : Bool :=
  hasSub keyword.data (content.data.map Char.toLower)

/-- The body of the `maxBoost` loop in `applyKeywordBoost`:
`maxBoost = Math.max(maxBoost, weight)` when the keyword is present. -/
def boostStep (p : String × ℚ → Bool) (a : ℚ) (kw : String × ℚ) : ℚ :=
  if p kw then jsMax a kw.2 else a

/-- The final value of the `maxBoost` accumulator of `applyKeywordBoost`. -/
def maxKeywordBoost (content : String) : ℚ :=
  BASE_KEYWORD_WEIGHTS.foldl (boostStep (fun kw => lowerContains content kw.1)) 0

/-- Embeds `applyKeywordBoost`: add the single highest weight among keywords present
(case-insensitively) in the content. -/
def applyKeywordBoost (currentSeverity : ℚ) (content : String) : ℚ :=
  currentSeverity + maxKeywordBoost content

/-- Embeds `applyGlobalModifiers`; `now` is the value of `Date.now()` in
milliseconds. -/
def applyGlobalModifiers (now : ℚ) (baseSeverity : ℚ) (options : NormalizeOptions) : ℚ :=
  let severity := baseSeverity
  let severity :=
    match options.postedAt with
    | some postedAt =>
        let hoursSincePost := (now - postedAt) / (1000 * 60 * 60)
        if hoursSincePost ≤ 24 then severity + 10
        else if hoursSincePost ≤ 168 then severity + 5
        else severity
    | none => severity
  let severity :=
    match options.sentimentScore with
    | some s => severity + (1 - s) * (15 / 2)
    | none => severity
  match options.content with
  | some content => applyKeywordBoost severity content
  | none => severity

/-- Embeds `normalizeSeverity`, the main entry point. `lg` models `Math.log10` and
`now` models `Date.now()`. -/
def normalizeSeverity (lg : ℚ → ℚ) (now : ℚ) (source : FeedbackSource)
    (meta : FeedbackMeta) (options : NormalizeOptions) : ℤ :=
  let severity : ℚ :=
    match source with
    | .app_store => normalizeAppStoreSeverity meta
    | .product_hunt => normalizeProductHuntSeverity meta
    | .reddit => normalizeRedditSeverity lg meta
    | .stack_overflow => normalizeStackOverflowSeverity meta
    | .quora => normalizeQuoraSeverity meta
    | .manual_upload => 50
    | .custom => 50
  let severity := applyGlobalModifiers now severity options
  jsRound (jsMax 0 (jsMin 100 severity))

-- ===========================================================================
-- Insight engine data model (insight-engine.ts, models)
-- ===========================================================================

/-- The `FeedbackType` enumeration. -/
inductive FeedbackType
  | bug | feature_request | complaint | praise | question | unknown
  deriving DecidableEq, Repr

/-- The `FeedbackStatus` enumeration. -/
inductive ItemStatus
  | pending | clustered | resolved | ignored
  deriving DecidableEq, Repr

/-- A `FeedbackItem` document, restricted to the fields the engine reads or
writes.  `created_at` is a millisecond timestamp. -/
structure Item where
  id : ℕ
  source : FeedbackSource
  content : String
  normalized_severity : ℚ
  feedback_type : FeedbackType
  sentiment_score : Option ℚ
  keywords : List String
  status : ItemStatus
  cluster_id : Option ℕ
  created_at : ℚ
  deriving DecidableEq, Repr

/-- A per-item `ClassificationResult` returned by the external classifier. -/
structure ClassificationResult where
  feedback_type : FeedbackType
  sentiment_score : ℚ
  technical_severity : ℚ
  keywords : List String
  summary : String
  deriving DecidableEq, Repr

/-- The `ClusterMetrics.trend` values. -/
inductive Trend
  | rising | stable | declining
  deriving DecidableEq, Repr

/-- The `ClusterPriority` enumeration. -/
inductive ClusterPriority
  | critical | high | medium | low
  deriving DecidableEq, Repr

/-- The `ClusterStatus` enumeration. -/
inductive ClusterStatus
  | active | reviewed | in_progress | resolved | wont_fix | rejected
  deriving DecidableEq, Repr

/-- The `metrics` sub-document of a cluster. -/
structure ClusterMetrics where
  total_items : ℕ
  avg_severity : ℚ
  max_severity : ℚ
  sources : List FeedbackSource
  first_seen : ℚ
  last_seen : ℚ
  trend : Trend
  deriving DecidableEq, Repr

/-- A `Cluster` document, restricted to the fields the engine reads or
writes.  `metrics` is optional to model a document on which the
sub-document has not been populated (the source guards with
`cluster.metrics?.trend`). -/
structure Cluster where
  id : ℕ
  title : String
  description : String
  metrics : Option ClusterMetrics
  aggregate_severity : ℚ
  priority : ClusterPriority
  status : ClusterStatus
  feedback_items : List ℕ
  alert_sent : Bool
  alert_sent_at : Option ℚ
  tags : List String
  deriving DecidableEq, Repr

-- ===========================================================================
-- InsightEngine.classifyItems
-- ===========================================================================

/-- The per-item update performed by `classifyItems` when a classification is
present for the item: set type and sentiment, blend severity when the
technical severity is positive (`item.normalized_severity || 50` treats a
stored 0 as 50), and union keywords when any were returned. -/
def applyClassification (item : Item) (c : ClassificationResult) : Item :=
  let item := { item with
    feedback_type := c.feedback_type
    sentiment_score := some c.sentiment_score }
  let item :=
    if c.technical_severity > 0 then
      let currentSeverity : ℚ :=
        if item.normalized_severity = 0 then 50 else item.normalized_severity
      { item with normalized_severity :=
          (jsRound (c.technical_severity * 0.7 + currentSeverity * 0.3) : ℤ) }
    else item
  if c.keywords.length > 0 then
    { item with keywords := jsSetDedup (item.keywords ++ c.keywords) }
  else item

/-- The inner `for (let j = 0; ...)` loop of `classifyItems` over one chunk:
items aligned positionally with the returned classifications; an item with no
corresponding entry is left untouched and not recorded as classified.
Returns (updated chunk, classified items in order). -/
def classifyChunk : List Item → List ClassificationResult → List Item × List Item
  | [], _ => ([], [])
  | its, [] => (its, [])
  | it :: its, r :: rs =>
      let it' := applyClassification it r
      let rest := classifyChunk its rs
      (it' :: rest.1, it' :: rest.2)

/-- The chunking loop of `classifyItems` (`chunkSize = 10`).  `oracle b` is
the outcome of the external classification call for batch `b`: `none` models
a thrown error (the batch is skipped and processing continues), `some rs`
the parsed result array.  `fuel` bounds the recursion and is set to
`items.length`, which always suffices since every step consumes at least one
item. -/
def classifyLoop (oracle : ℕ → Option (List ClassificationResult)) :
    ℕ → ℕ → List Item → List Item × List Item
  | _, _, [] => ([], [])
  | _, 0, items => (items, [])
  | idx, fuel + 1, it :: its =>
      let chunk := (it :: its).take 10
      let rest := (it :: its).drop 10
      let front :=
        match oracle idx with
        | some results => classifyChunk chunk results
        | none => (chunk, [])
      let back := classifyLoop oracle (idx + 1) fuel rest
      (front.1 ++ back.1, front.2 ++ back.2)

/-- Embeds `InsightEngine.classifyItems`: returns (all items after the stage,
classified items). -/
def classifyItems (oracle : ℕ → Option (List ClassificationResult))
    (items : List Item) : List Item × List Item :=
  classifyLoop oracle 0 items.length items

-- ===========================================================================
-- InsightEngine.updateClusterMetrics
-- ===========================================================================

/-- The trend carried over by `updateClusterMetrics`:
`cluster.metrics?.trend || 'stable'`. -/
def carriedTrend (cluster : Cluster) : Trend :=
  match cluster.metrics with
  | some m => m.trend
  | none => Trend.stable

/-- Embeds `InsightEngine.updateClusterMetrics`, with the member items found by the
database lookup passed in explicitly (a missing-item reference simply does
not appear in `items`).  Returns the updated cluster. -/
def updateClusterMetrics (items : List Item) (cluster : Cluster) : Cluster :=
  if items = [] then cluster
  else
    let severities := items.map (·.normalized_severity)
    let sources := jsSetDedup (items.map (·.source))
    let dates := items.map (·.created_at)
    let avgSeverity := severities.foldl (· + ·) 0 / (severities.length : ℚ)
    let maxSeverity := listMax severities
    let cluster := { cluster with metrics := some {
        total_items := items.length
        avg_severity := (jsRound avgSeverity : ℤ)
        max_severity := maxSeverity
        sources := sources
        first_seen := listMin dates
        last_seen := listMax dates
        trend := carriedTrend cluster } }
    let cluster := { cluster with
      aggregate_severity := (jsRound (avgSeverity * 0.4 + maxSeverity * 0.6) : ℤ) }
    { cluster with priority :=
        if cluster.aggregate_severity ≥ 90 then ClusterPriority.critical
        else if cluster.aggregate_severity ≥ 75 then ClusterPriority.high
        else if cluster.aggregate_severity ≥ 50 then ClusterPriority.medium
        else ClusterPriority.low }

-- ===========================================================================
-- InsightEngine.clusterItems (1-to-1 clustering)
-- ===========================================================================

/-- The literal source name, as interpolated into the default title. -/
def sourceName : FeedbackSource → String
  | .app_store => "app_store"
  | .product_hunt => "product_hunt"
  | .reddit => "reddit"
  | .quora => "quora"
  | .stack_overflow => "stack_overflow"
  | .manual_upload => "manual_upload"
  | .custom => "custom"

/-- The freshly constructed cluster for one item (`new Cluster({...})` in
`clusterItems`; `item.summary` is not a field of the feedback-item schema,
so the title always falls back to the template). -/
def initialCluster (cid : ℕ) (item : Item) : Cluster :=
  { id := cid
    title := "Issue reported via " ++ sourceName item.source
    description := item.content.take 500
    metrics := some {
      total_items := 1
      avg_severity := item.normalized_severity
      max_severity := item.normalized_severity
      sources := [item.source]
      first_seen := item.created_at
      last_seen := item.created_at
      trend := Trend.stable }
    aggregate_severity := item.normalized_severity
    priority := ClusterPriority.medium
    status := ClusterStatus.active
    feedback_items := [item.id]
    alert_sent := false
    alert_sent_at := none
    tags := item.keywords }

/-- Embeds `InsightEngine.clusterItems`: every not-yet-clustered item becomes the
sole member of a new cluster; the item transitions to `clustered`, and
`updateClusterMetrics` then recomputes the cluster from the saved item.
`startId` supplies fresh cluster ids.  Returns (updated items, created
clusters). -/
def clusterItems : List Item → ℕ → List Item × List Cluster
  | [], _ => ([], [])
  | item :: rest, startId =>
      if item.status = ItemStatus.clustered then
        let r := clusterItems rest startId
        (item :: r.1, r.2)
      else
        let cluster0 := initialCluster startId item
        let item' := { item with status := ItemStatus.clustered, cluster_id := some startId }
        let cluster1 := updateClusterMetrics [item'] cluster0
        let r := clusterItems rest (startId + 1)
        (item' :: r.1, cluster1 :: r.2)

-- ===========================================================================
-- Alert gate and analysis pipeline (InsightEngine.analyze)
-- ===========================================================================

/-- The error string pushed when alert delivery throws. -/
def alertFailMsg (c : Cluster) : String :=
  "Alert failed for cluster " ++ toString c.id

/-- One iteration of the alert loop for one cluster.  `deliver` is the
outcome of `sendCriticalAlert` (`false` models a thrown delivery error).
Returns (cluster state afterwards, alerts fired, errors pushed). -/
def maybeAlert (deliver : Bool) (now threshold : ℚ) (c : Cluster) :
    Cluster × ℕ × List String :=
  if c.aggregate_severity ≥ threshold ∧ c.alert_sent = false then
    if deliver then
      ({ c with alert_sent := true, alert_sent_at := some now }, 1, [])
    else (c, 0, [alertFailMsg c])
  else (c, 0, [])

/-- The `for (const cluster of clusters)` alert loop of `analyze`. -/
def alertLoop (deliver : ℕ → Bool) (now threshold : ℚ) :
    List Cluster → List Cluster × ℕ × List String
  | [] => ([], 0, [])
  | c :: cs =>
      let hd := maybeAlert (deliver c.id) now threshold c
      let tl := alertLoop deliver now threshold cs
      (hd.1 :: tl.1, hd.2.1 + tl.2.1, hd.2.2 ++ tl.2.2)

/-- The `AnalysisResult` record reported by `analyze`. -/
structure AnalysisResult where
  success : Bool
  itemsClassified : ℕ
  clustersCreated : ℕ
  alertsSent : ℕ
  errors : List String
  deriving DecidableEq, Repr

/-- The full state produced by one `analyze` run. -/
structure AnalyzeOutput where
  result : AnalysisResult
  itemsAfterClassify : List Item
  itemsAfterCluster : List Item
  clusters : List Cluster
  deriving DecidableEq, Repr

/-- Embeds `InsightEngine.analyze`; `fetched` is the outcome of the initial
database query for pending items (`Except.error` models the only
unrecoverable failure path, which makes `success = false`); classification
and clustering never throw in the embedding, exactly as in the source their
failures are caught stage-locally. -/
def analyze (oracle : ℕ → Option (List ClassificationResult))
    (deliver : ℕ → Bool) (now threshold : ℚ)
    (fetched : Except String (List Item)) (skipAlerts : Bool) : AnalyzeOutput :=
  match fetched with
  | .error e =>
      { result := { success := false, itemsClassified := 0, clustersCreated := 0,
                    alertsSent := 0, errors := [e] }
        itemsAfterClassify := [], itemsAfterCluster := [], clusters := [] }
  | .ok pendingItems =>
      if pendingItems = [] then
        { result := { success := true, itemsClassified := 0, clustersCreated := 0,
                      alertsSent := 0, errors := [] }
          itemsAfterClassify := [], itemsAfterCluster := [], clusters := [] }
      else
        let cls := classifyItems oracle pendingItems
        let clu := clusterItems cls.2 0
        let al :=
          if skipAlerts then (clu.2, 0, ([] : List String))
          else alertLoop deliver now threshold clu.2
        { result := { success := true, itemsClassified := cls.2.length,
                      clustersCreated := clu.2.length, alertsSent := al.2.1,
                      errors := al.2.2 }
          itemsAfterClassify := cls.1
          itemsAfterCluster := clu.1
          clusters := al.1 }

-- ===========================================================================
-- InsightEngine.updateTrends
-- ===========================================================================

/-- The per-cluster body of `updateTrends`, applied to the member items as
fetched by the database sorted by `created_at` descending.  Clusters with
fewer than 5 found items are left untouched (`continue`). -/
def updateTrend (items : List Item) (t : Trend) : Trend :=
  if items.length < 5 then t
  else
    let midpoint := items.length / 2
    let recentItems := items.take midpoint
    let olderItems := items.drop midpoint
    let recentAvg := recentItems.foldl (fun s i => s + i.normalized_severity) 0 /
      (recentItems.length : ℚ)
    let olderAvg := olderItems.foldl (fun s i => s + i.normalized_severity) 0 /
      (olderItems.length : ℚ)
    let diff := recentAvg - olderAvg
    if diff > 10 then Trend.rising
    else if diff < -10 then Trend.declining
    else Trend.stable

-- ===========================================================================
-- Helper lemmas
-- ===========================================================================

theorem clampRound_bounds (x : ℚ) :
    0 ≤ jsRound (jsMax 0 (jsMin 100 x)) ∧ jsRound (jsMax 0 (jsMin 100 x)) ≤ 100 := by
  unfold jsRound jsMax jsMin
  constructor
  · apply Int.le_floor.mpr
    have h0 : (0:ℚ) ≤ max 0 (min 100 x) := le_max_left _ _
    push_cast
    linarith
  · have h1 : max 0 (min 100 x) ≤ 100 := max_le (by norm_num) (min_le_left _ _)
    have h2 : ⌊max 0 (min 100 x) + 1/2⌋ ≤ ⌊(100:ℚ) + 1/2⌋ := Int.floor_le_floor (by linarith)
    have h3 : ⌊(100:ℚ) + 1/2⌋ = 100 := by norm_num
    omega

theorem app_store_reduce (lg : ℚ → ℚ) (now : ℚ) (meta : FeedbackMeta) :
    normalizeSeverity lg now .app_store meta {} =
      jsRound (jsMax 0 (jsMin 100 (normalizeAppStoreSeverity meta))) := rfl

theorem boost_le (p : String × ℚ → Bool) :
    ∀ (l : List (String × ℚ)) (acc : ℚ), acc ≤ l.foldl (boostStep p) acc
  | [], acc => le_refl acc
  | kw :: l, acc => by
      by_cases hp : p kw
      · calc acc ≤ jsMax acc kw.2 := le_max_left _ _
          _ ≤ l.foldl (boostStep p) (jsMax acc kw.2) := boost_le p l _
          _ = (kw :: l).foldl (boostStep p) acc := by simp [boostStep, hp]
      · simpa [boostStep, hp] using boost_le p l acc

theorem boost_mem (p : String × ℚ → Bool) :
    ∀ (l : List (String × ℚ)) (acc : ℚ),
      l.foldl (boostStep p) acc = acc ∨
        l.foldl (boostStep p) acc ∈ (l.filter p).map Prod.snd
  | [], acc => Or.inl rfl
  | kw :: l, acc => by
      by_cases hp : p kw
      · have hstep : (kw :: l).foldl (boostStep p) acc
            = l.foldl (boostStep p) (jsMax acc kw.2) := by simp [boostStep, hp]
        rw [hstep, List.filter_cons_of_pos hp, List.map_cons]
        rcases boost_mem p l (jsMax acc kw.2) with h | h
        · rw [h]
          rcases max_choice acc kw.2 with h2 | h2
          · exact Or.inl h2
          · exact Or.inr (by rw [jsMax, h2]; exact List.mem_cons_self _ _)
        · exact Or.inr (List.mem_cons_of_mem _ h)
      · have hstep : (kw :: l).foldl (boostStep p) acc
            = l.foldl (boostStep p) acc := by simp [boostStep, hp]
        rw [hstep, List.filter_cons_of_neg hp]
        exact boost_mem p l acc

theorem boost_ub (p : String × ℚ → Bool) :
    ∀ (l : List (String × ℚ)) (acc : ℚ),
      ∀ w ∈ (l.filter p).map Prod.snd, w ≤ l.foldl (boostStep p) acc
  | [], acc => by simp
  | kw :: l, acc => by
      intro w hw
      by_cases hp : p kw
      · have hstep : (kw :: l).foldl (boostStep p) acc
            = l.foldl (boostStep p) (jsMax acc kw.2) := by simp [boostStep, hp]
        rw [hstep]
        rw [List.filter_cons_of_pos hp, List.map_cons, List.mem_cons] at hw
        rcases hw with h | h
        · rw [h]
          exact le_trans (le_max_right _ _) (boost_le p l _)
        · exact boost_ub p l (jsMax acc kw.2) w h
      · have hstep : (kw :: l).foldl (boostStep p) acc
            = l.foldl (boostStep p) acc := by simp [boostStep, hp]
        rw [hstep]
        rw [List.filter_cons_of_neg hp] at hw
        exact boost_ub p l acc w hw

/-- Every weight in the fixed keyword table is at least 5. -/
theorem base_keyword_weights_ge_five :
    ∀ w ∈ BASE_KEYWORD_WEIGHTS.map Prod.snd, (5:ℚ) ≤ w := by decide

-- ===========================================================================
-- Claim theorems
-- ===========================================================================

/-- C2: for every source, metadata bag, and combination of optional
sentiment, postedAt, and content inputs (and for every behaviour of the
external `Math.log10` and clock), `normalizeSeverity` returns an integer in
[0, 100]: the final score is clamped to [0,100] and rounded. -/
theorem C2_normalize_severity_bounds (lg : ℚ → ℚ) (now : ℚ)
    (source : FeedbackSource) (meta : FeedbackMeta) (options : NormalizeOptions) :
    0 ≤ normalizeSeverity lg now source meta options ∧
    normalizeSeverity lg now source meta options ≤ 100 := by
  simp only [normalizeSeverity]
  exact clampRound_bounds _

/-- C3: the keyword boost added by `applyKeywordBoost` equals the maximum
weight among the table entries whose keyword occurs case-insensitively in the
text (0 when none occurs); weights are never summed, so text containing both
"crash" (40) and "issue" (5) gets boost 40, the same as text containing only
"crash". -/
theorem C3_keyword_boost_single_max (sev : ℚ) (text : String) :
    applyKeywordBoost sev text = sev + maxKeywordBoost text ∧
    (BASE_KEYWORD_WEIGHTS.filter (fun kw => lowerContains text kw.1) = [] →
      maxKeywordBoost text = 0) ∧
    (BASE_KEYWORD_WEIGHTS.filter (fun kw => lowerContains text kw.1) ≠ [] →
      maxKeywordBoost text ∈
        (BASE_KEYWORD_WEIGHTS.filter (fun kw => lowerContains text kw.1)).map Prod.snd) ∧
    (∀ w ∈ (BASE_KEYWORD_WEIGHTS.filter (fun kw => lowerContains text kw.1)).map Prod.snd,
      w ≤ maxKeywordBoost text) ∧
    applyKeywordBoost sev "My app will crash, such an issue" = sev + 40 ∧
    applyKeywordBoost sev "My app will crash" = sev + 40 := by
  have hub := boost_ub (fun kw => lowerContains text kw.1) BASE_KEYWORD_WEIGHTS 0
  have hmem := boost_mem (fun kw => lowerContains text kw.1) BASE_KEYWORD_WEIGHTS 0
  refine ⟨rfl, ?_, ?_, hub, ?_, ?_⟩
  · intro hempty
    rcases hmem with h | h
    · exact h
    · rw [hempty] at h
      simp at h
  · intro hne
    rcases hmem with h | h
    · exfalso
      obtain ⟨kw, hkw⟩ := List.exists_mem_of_ne_nil _ hne
      have h5 : (5:ℚ) ≤ kw.2 := by
        apply base_keyword_weights_ge_five
        exact List.mem_map_of_mem Prod.snd (List.mem_of_mem_filter hkw)
      have hle : kw.2 ≤ maxKeywordBoost text :=
        hub kw.2 (List.mem_map_of_mem Prod.snd hkw)
      rw [maxKeywordBoost] at hle
      rw [h] at hle
      linarith
    · exact h
  · rw [applyKeywordBoost,
      show maxKeywordBoost "My app will crash, such an issue" = 40 from by decide]
  · rw [applyKeywordBoost, show maxKeywordBoost "My app will crash" = 40 from by decide]

/-- C4: for app_store items with no global modifiers, the base severity is
95, 75, 50, 25, 10 for star ratings 1–5, 50 when the rating is absent, and
severity strictly decreases from each rating to the next. -/
theorem C4_app_store_star_severity (lg : ℚ → ℚ) (now : ℚ) :
    normalizeSeverity lg now .app_store { star_rating := some 1 } {} = 95 ∧
    normalizeSeverity lg now .app_store { star_rating := some 2 } {} = 75 ∧
    normalizeSeverity lg now .app_store { star_rating := some 3 } {} = 50 ∧
    normalizeSeverity lg now .app_store { star_rating := some 4 } {} = 25 ∧
    normalizeSeverity lg now .app_store { star_rating := some 5 } {} = 10 ∧
    normalizeSeverity lg now .app_store {} {} = 50 ∧
    normalizeSeverity lg now .app_store { star_rating := some 2 } {} <
      normalizeSeverity lg now .app_store { star_rating := some 1 } {} ∧
    normalizeSeverity lg now .app_store { star_rating := some 3 } {} <
      normalizeSeverity lg now .app_store { star_rating := some 2 } {} ∧
    normalizeSeverity lg now .app_store { star_rating := some 4 } {} <
      normalizeSeverity lg now .app_store { star_rating := some 3 } {} ∧
    normalizeSeverity lg now .app_store { star_rating := some 5 } {} <
      normalizeSeverity lg now .app_store { star_rating := some 4 } {} := by
  have h1 : normalizeSeverity lg now .app_store { star_rating := some 1 } {} = 95 := by
    rw [app_store_reduce]
    norm_num [normalizeAppStoreSeverity, STAR_TO_SEVERITY, jsRound, jsMax, jsMin, max_def, min_def]
  have h2 : normalizeSeverity lg now .app_store { star_rating := some 2 } {} = 75 := by
    rw [app_store_reduce]
    norm_num [normalizeAppStoreSeverity, STAR_TO_SEVERITY, jsRound, jsMax, jsMin, max_def, min_def]
  have h3 : normalizeSeverity lg now .app_store { star_rating := some 3 } {} = 50 := by
    rw [app_store_reduce]
    norm_num [normalizeAppStoreSeverity, STAR_TO_SEVERITY, jsRound, jsMax, jsMin, max_def, min_def]
  have h4 : normalizeSeverity lg now .app_store { star_rating := some 4 } {} = 25 := by
    rw [app_store_reduce]
    norm_num [normalizeAppStoreSeverity, STAR_TO_SEVERITY, jsRound, jsMax, jsMin, max_def, min_def]
  have h5 : normalizeSeverity lg now .app_store { star_rating := some 5 } {} = 10 := by
    rw [app_store_reduce]
    norm_num [normalizeAppStoreSeverity, STAR_TO_SEVERITY, jsRound, jsMax, jsMin, max_def, min_def]
  have h0 : normalizeSeverity lg now .app_store {} {} = 50 := by
    rw [app_store_reduce]
    norm_num [normalizeAppStoreSeverity, STAR_TO_SEVERITY, jsRound, jsMax, jsMin, max_def, min_def]
  refine ⟨h1, h2, h3, h4, h5, h0, ?_, ?_, ?_, ?_⟩ <;> omega

/-- C3 witness: concrete instance with hypotheses discharged at
`sev = 7` and text containing both "crash" and "issue". -/
theorem C3_witness :
    applyKeywordBoost 7 "My app will crash, such an issue" = 7 + 40 ∧
    maxKeywordBoost "My app will crash, such an issue" ∈
      (BASE_KEYWORD_WEIGHTS.filter
        (fun kw => lowerContains "My app will crash, such an issue" kw.1)).map Prod.snd :=
  ⟨(C3_keyword_boost_single_max 7 "My app will crash, such an issue").2.2.2.2.1,
   (C3_keyword_boost_single_max 7 "My app will crash, such an issue").2.2.1 (by decide)⟩

theorem foldl_max_le (l : List ℚ) : ∀ a : ℚ, a ≤ l.foldl max a := by
  induction l with
  | nil => intro a; exact le_refl a
  | cons x xs ih =>
      intro a
      calc a ≤ max a x := le_max_left _ _
        _ ≤ xs.foldl max (max a x) := ih _
        _ = (x :: xs).foldl max a := rfl

theorem foldl_max_mem (l : List ℚ) : ∀ a : ℚ, l.foldl max a = a ∨ l.foldl max a ∈ l := by
  induction l with
  | nil => intro a; exact Or.inl rfl
  | cons x xs ih =>
      intro a
      rcases ih (max a x) with h | h
      · rcases max_choice a x with h2 | h2
        · exact Or.inl (by rw [List.foldl_cons, h, h2])
        · exact Or.inr (by rw [List.foldl_cons, h, h2]; exact List.mem_cons_self _ _)
      · exact Or.inr (List.mem_cons_of_mem _ h)

theorem foldl_max_ub (l : List ℚ) : ∀ (a : ℚ), ∀ x ∈ l, x ≤ l.foldl max a := by
  induction l with
  | nil => intro a x hx; simp at hx
  | cons y ys ih =>
      intro a x hx
      rcases List.mem_cons.mp hx with h | h
      · subst h
        calc x ≤ max a x := le_max_right _ _
          _ ≤ ys.foldl max (max a x) := foldl_max_le _ _
          _ = (x :: ys).foldl max a := rfl
      · exact ih (max a y) x h

theorem listMax_mem (l : List ℚ) (h : l ≠ []) : listMax l ∈ l := by
  match l with
  | [] => exact absurd rfl h
  | x :: xs =>
      rcases foldl_max_mem xs x with h2 | h2
      · rw [listMax, h2]; exact List.mem_cons_self _ _
      · rw [listMax]; exact List.mem_cons_of_mem _ h2

theorem listMax_ub (l : List ℚ) : ∀ x ∈ l, x ≤ listMax l := by
  match l with
  | [] => intro x hx; simp at hx
  | y :: ys =>
      intro x hx
      rcases List.mem_cons.mp hx with h | h
      · subst h; rw [listMax]; exact foldl_max_le _ _
      · rw [listMax]; exact foldl_max_ub ys y x h

theorem foldl_add_eq_sum (l : List ℚ) : ∀ a : ℚ, l.foldl (· + ·) a = a + l.sum := by
  induction l with
  | nil => intro a; simp
  | cons x xs ih =>
      intro a
      rw [List.foldl_cons, ih (a + x), List.sum_cons]
      ring

/-- Field-level description of `updateClusterMetrics` on a non-empty member
list: the aggregate formula, the priority chain, and the carried trend. -/
theorem updateClusterMetrics_fields (items : List Item) (c : Cluster) (h : items ≠ []) :
    (updateClusterMetrics items c).aggregate_severity =
      ((jsRound ((items.map (·.normalized_severity)).sum / (items.length : ℚ) * 0.4 +
        listMax (items.map (·.normalized_severity)) * 0.6) : ℤ) : ℚ) ∧
    (updateClusterMetrics items c).priority =
      (if (updateClusterMetrics items c).aggregate_severity ≥ 90 then ClusterPriority.critical
       else if (updateClusterMetrics items c).aggregate_severity ≥ 75 then ClusterPriority.high
       else if (updateClusterMetrics items c).aggregate_severity ≥ 50 then ClusterPriority.medium
       else ClusterPriority.low) ∧
    (updateClusterMetrics items c).metrics.map (·.trend) = some (carriedTrend c) := by
  rw [updateClusterMetrics, if_neg h]
  refine ⟨?_, ?_, ?_⟩ <;> simp [foldl_add_eq_sum]

/-- The descending-threshold priority chain characterized as the four
disjoint intervals of the claim. -/
theorem priority_chain_iff (j : ℤ) :
    ((if ((j:ℚ)) ≥ 90 then ClusterPriority.critical
      else if ((j:ℚ)) ≥ 75 then ClusterPriority.high
      else if ((j:ℚ)) ≥ 50 then ClusterPriority.medium
      else ClusterPriority.low) = ClusterPriority.critical ↔ 90 ≤ j) ∧
    ((if ((j:ℚ)) ≥ 90 then ClusterPriority.critical
      else if ((j:ℚ)) ≥ 75 then ClusterPriority.high
      else if ((j:ℚ)) ≥ 50 then ClusterPriority.medium
      else ClusterPriority.low) = ClusterPriority.high ↔ 75 ≤ j ∧ j < 90) ∧
    ((if ((j:ℚ)) ≥ 90 then ClusterPriority.critical
      else if ((j:ℚ)) ≥ 75 then ClusterPriority.high
      else if ((j:ℚ)) ≥ 50 then ClusterPriority.medium
      else ClusterPriority.low) = ClusterPriority.medium ↔ 50 ≤ j ∧ j < 75) ∧
    ((if ((j:ℚ)) ≥ 90 then ClusterPriority.critical
      else if ((j:ℚ)) ≥ 75 then ClusterPriority.high
      else if ((j:ℚ)) ≥ 50 then ClusterPriority.medium
      else ClusterPriority.low) = ClusterPriority.low ↔ j < 50) := by
  have c90 : (((j:ℚ)) ≥ 90) ↔ 90 ≤ j := by
    rw [ge_iff_le]
    exact_mod_cast Iff.rfl
  have c75 : (((j:ℚ)) ≥ 75) ↔ 75 ≤ j := by
    rw [ge_iff_le]
    exact_mod_cast Iff.rfl
  have c50 : (((j:ℚ)) ≥ 50) ↔ 50 ≤ j := by
    rw [ge_iff_le]
    exact_mod_cast Iff.rfl
  simp only [c90, c75, c50]
  split_ifs <;> refine ⟨?_, ?_, ?_, ?_⟩ <;> constructor <;> intro hx <;>
    first
      | rfl
      | omega
      | (exact absurd hx (by decide))

/-- A minimal feedback item used in concrete scenarios. -/
def mkItem (id : ℕ) (sev : ℚ) (t : ℚ) : Item :=
  { id := id, source := FeedbackSource.app_store, content := "",
    normalized_severity := sev, feedback_type := FeedbackType.unknown,
    sentiment_score := none, keywords := [], status := ItemStatus.pending,
    cluster_id := none, created_at := t }

/-- Member items with severities [60, 60, 60, 100] (the worked example of
the aggregate formula). -/
def C1exItems : List Item := [mkItem 1 60 1, mkItem 2 60 2, mkItem 3 60 3, mkItem 4 100 4]

/-- A cluster to recompute in the worked example. -/
def C1exCluster : Cluster := initialCluster 0 (mkItem 1 60 1)

/-- C1: recomputing metrics of a cluster with non-empty member severities S
sets `aggregate_severity = round(mean(S)*0.4 + max(S)*0.6)` (with max the
greatest member severity) and derives priority as critical iff the aggregate
is ≥ 90, high iff in [75, 90), medium iff in [50, 75), and low otherwise;
for severities [60,60,60,100] the aggregate is 88 and the priority high. -/
theorem C1_cluster_aggregate_severity_and_priority (items : List Item) (c : Cluster)
    (h : items ≠ []) :
    (updateClusterMetrics items c).aggregate_severity =
      ((jsRound ((items.map (·.normalized_severity)).sum / (items.length : ℚ) * 0.4 +
        listMax (items.map (·.normalized_severity)) * 0.6) : ℤ) : ℚ) ∧
    listMax (items.map (·.normalized_severity)) ∈ items.map (·.normalized_severity) ∧
    (∀ s ∈ items.map (·.normalized_severity), s ≤ listMax (items.map (·.normalized_severity))) ∧
    ((updateClusterMetrics items c).priority = ClusterPriority.critical ↔
      90 ≤ jsRound ((items.map (·.normalized_severity)).sum / (items.length : ℚ) * 0.4 +
        listMax (items.map (·.normalized_severity)) * 0.6)) ∧
    ((updateClusterMetrics items c).priority = ClusterPriority.high ↔
      75 ≤ jsRound ((items.map (·.normalized_severity)).sum / (items.length : ℚ) * 0.4 +
        listMax (items.map (·.normalized_severity)) * 0.6) ∧
      jsRound ((items.map (·.normalized_severity)).sum / (items.length : ℚ) * 0.4 +
        listMax (items.map (·.normalized_severity)) * 0.6) < 90) ∧
    ((updateClusterMetrics items c).priority = ClusterPriority.medium ↔
      50 ≤ jsRound ((items.map (·.normalized_severity)).sum / (items.length : ℚ) * 0.4 +
        listMax (items.map (·.normalized_severity)) * 0.6) ∧
      jsRound ((items.map (·.normalized_severity)).sum / (items.length : ℚ) * 0.4 +
        listMax (items.map (·.normalized_severity)) * 0.6) < 75) ∧
    ((updateClusterMetrics items c).priority = ClusterPriority.low ↔
      jsRound ((items.map (·.normalized_severity)).sum / (items.length : ℚ) * 0.4 +
        listMax (items.map (·.normalized_severity)) * 0.6) < 50) ∧
    (updateClusterMetrics C1exItems C1exCluster).aggregate_severity = 88 ∧
    (updateClusterMetrics C1exItems C1exCluster).priority = ClusterPriority.high := by
  obtain ⟨hagg, hprio, -⟩ := updateClusterMetrics_fields items c h
  have hmem : items.map (·.normalized_severity) ≠ [] := by
    intro hcon
    exact h (List.map_eq_nil_iff.mp hcon)
  have hex : (updateClusterMetrics C1exItems C1exCluster).aggregate_severity = 88 := by
    obtain ⟨ha, -, -⟩ := updateClusterMetrics_fields C1exItems C1exCluster (by simp [C1exItems])
    rw [ha]
    norm_num [C1exItems, mkItem, listMax, jsRound, max_def, min_def]
  have hexp : (updateClusterMetrics C1exItems C1exCluster).priority = ClusterPriority.high := by
    obtain ⟨ha, hp, -⟩ := updateClusterMetrics_fields C1exItems C1exCluster (by simp [C1exItems])
    rw [hp, hex]
    norm_num
  rw [hagg] at hprio
  have hiff := priority_chain_iff (jsRound ((items.map (·.normalized_severity)).sum /
    (items.length : ℚ) * 0.4 + listMax (items.map (·.normalized_severity)) * 0.6))
  refine ⟨hagg, listMax_mem _ hmem, listMax_ub _, ?_, ?_, ?_, ?_, hex, hexp⟩ <;>
    rw [hprio]
  · exact hiff.1
  · exact hiff.2.1
  · exact hiff.2.2.1
  · exact hiff.2.2.2

/-- C1 witness: the non-emptiness hypothesis discharged on the concrete
[60,60,60,100] member list, yielding aggregate 88 and priority high. -/
theorem C1_witness :
    C1exItems ≠ [] ∧
    (updateClusterMetrics C1exItems C1exCluster).aggregate_severity = 88 ∧
    (updateClusterMetrics C1exItems C1exCluster).priority = ClusterPriority.high :=
  ⟨by simp [C1exItems],
   (C1_cluster_aggregate_severity_and_priority C1exItems C1exCluster
      (by simp [C1exItems])).2.2.2.2.2.2.2.1,
   (C1_cluster_aggregate_severity_and_priority C1exItems C1exCluster
      (by simp [C1exItems])).2.2.2.2.2.2.2.2⟩

/-- C10: recomputing cluster metrics never changes the trend (the existing
trend is carried over; it becomes `stable` only when no metrics were set),
and when no referenced member item is found the recomputation returns early
leaving every cluster field unchanged. -/
theorem C10_metrics_frame (items : List Item) (c : Cluster) :
    updateClusterMetrics [] c = c ∧
    ((updateClusterMetrics items c).metrics.map (·.trend) =
      if items = [] then c.metrics.map (·.trend)
      else some (c.metrics.elim Trend.stable (·.trend))) := by
  constructor
  · simp [updateClusterMetrics]
  · by_cases h : items = []
    · subst h
      simp [updateClusterMetrics]
    · obtain ⟨-, -, ht⟩ := updateClusterMetrics_fields items c h
      rw [if_neg h, ht]
      cases hm : c.metrics <;> simp [carriedTrend, hm]

-- ===========================================================================
-- C8: classification severity blend
-- ===========================================================================

/-- The claim's blend rule, amended with the source's falsy-zero quirk: an
old severity equal to 0 enters the blend as 50. -/
def blendSpec (ts old : ℚ) : ℚ :=
  if ts > 0 then ((jsRound (ts * 0.7 + (if old = 0 then 50 else old) * 0.3) : ℤ) : ℚ)
  else old

/-- C8 (amended): for every classified item, the updated severity is
`round(ts*0.7 + old*0.3)` when the returned technical severity `ts` is
positive — except that an old severity of 0 enters the blend as 50 — and the
severity is unchanged when `ts` is 0 (or negative). -/
theorem C8_severity_blend_amended (item : Item) (c : ClassificationResult) :
    (applyClassification item c).normalized_severity =
      blendSpec c.technical_severity item.normalized_severity := by
  rw [applyClassification, blendSpec]
  by_cases hts : c.technical_severity > 0 <;>
    by_cases hkw : c.keywords.length > 0 <;>
      simp [hts, hkw]

/-- C8 counterexample: an item with stored severity 0 and technical severity
10 is updated to round(10*0.7 + 50*0.3) = 22, not round(10*0.7 + 0*0.3) = 7,
refuting the claim's unqualified blend formula. -/
theorem C8_counterexample :
    (applyClassification (mkItem 1 0 0)
        { feedback_type := FeedbackType.bug, sentiment_score := 0,
          technical_severity := 10, keywords := [], summary := "" }).normalized_severity = 22 ∧
    ((jsRound ((10:ℚ) * 0.7 + 0 * 0.3) : ℤ) : ℚ) = 7 ∧
    (22:ℚ) ≠ 7 := by
  refine ⟨?_, by norm_num [jsRound], by norm_num⟩
  norm_num [applyClassification, mkItem, jsRound]

-- ===========================================================================
-- C5 / C7: alert gating
-- ===========================================================================

/-- Repeated runs of the alert gate on one cluster across analysis runs:
each step supplies a delivery outcome, a clock value and a threshold.
Returns the final cluster state and the total number of alerts fired. -/
def alertRuns (c : Cluster) : List (Bool × ℚ × ℚ) → Cluster × ℕ
  | [] => (c, 0)
  | (d, now, th) :: rest =>
      let hd := maybeAlert d now th c
      let tl := alertRuns hd.1 rest
      (tl.1, hd.2.1 + tl.2)

theorem maybeAlert_sent (c : Cluster) (h : c.alert_sent = true)
    (d : Bool) (now th : ℚ) : maybeAlert d now th c = (c, 0, []) := by
  simp [maybeAlert, h]

/-- C5: once a cluster's `alert_sent` flag is true, the gate leaves the
cluster unchanged and fires nothing — in particular any sequence of
subsequent automated runs (two included) fires zero alerts — and, for any
cluster, the gate fires only when `aggregate_severity ≥ threshold` and
`alert_sent` is false. -/
theorem C5_alert_idempotence (c : Cluster) (h : c.alert_sent = true) :
    (∀ (d : Bool) (now th : ℚ), maybeAlert d now th c = (c, 0, [])) ∧
    (∀ steps : List (Bool × ℚ × ℚ), alertRuns c steps = (c, 0)) ∧
    (∀ (d : Bool) (now th : ℚ) (c' : Cluster),
      (maybeAlert d now th c').2.1 = 1 →
        th ≤ c'.aggregate_severity ∧ c'.alert_sent = false) := by
  refine ⟨maybeAlert_sent c h, ?_, ?_⟩
  · intro steps
    induction steps with
    | nil => rfl
    | cons s rest ih =>
        obtain ⟨d, now, th⟩ := s
        simp [alertRuns, maybeAlert_sent c h, ih]
  · intro d now th c' hf
    by_cases hc : c'.aggregate_severity ≥ th ∧ c'.alert_sent = false
    · exact ⟨hc.1, hc.2⟩
    · exfalso
      simp [maybeAlert, hc] at hf

/-- A cluster whose alert was already sent. -/
def sentCluster : Cluster := { initialCluster 0 (mkItem 1 95 0) with alert_sent := true }

/-- C5 witness: the already-sent hypothesis discharged on a concrete
cluster; two successive gate runs fire zero alerts. -/
theorem C5_witness :
    maybeAlert true 0 80 sentCluster = (sentCluster, 0, []) ∧
    alertRuns sentCluster [(true, 0, 80), (false, 1, 70)] = (sentCluster, 0) :=
  ⟨(C5_alert_idempotence sentCluster rfl).1 true 0 80,
   (C5_alert_idempotence sentCluster rfl).2.1 [(true, 0, 80), (false, 1, 70)]⟩

theorem alertLoop_errors_flatMap (d : ℕ → Bool) (now th : ℚ) :
    ∀ cs : List Cluster,
      (alertLoop d now th cs).2.2 = cs.flatMap (fun c => (maybeAlert (d c.id) now th c).2.2)
  | [] => rfl
  | c :: cs => by
      simp [alertLoop, alertLoop_errors_flatMap d now th cs]

/-- C7: when alert delivery for a cluster fails, the gate leaves the cluster
unchanged (`alert_sent` stays false, `alert_sent_at` is not set) and pushes
the failure message, which therefore appears in the run's `errors[]`; the
run's `success` flag and its classification/clustering counts do not depend
on delivery outcomes. -/
theorem C7_alert_failure_recovery (d : ℕ → Bool) (now th : ℚ) (c : Cluster)
    (hga : c.aggregate_severity ≥ th) (hsent : c.alert_sent = false) (hfail : d c.id = false) :
    maybeAlert (d c.id) now th c = (c, 0, [alertFailMsg c]) ∧
    (∀ cs : List Cluster, c ∈ cs → alertFailMsg c ∈ (alertLoop d now th cs).2.2) ∧
    (∀ (oracle : ℕ → Option (List ClassificationResult)) (pending : List Item)
        (skipAlerts : Bool) (d2 : ℕ → Bool),
      (analyze oracle d now th (Except.ok pending) skipAlerts).result.success = true ∧
      (analyze oracle d now th (Except.ok pending) skipAlerts).result.itemsClassified =
        (analyze oracle d2 now th (Except.ok pending) skipAlerts).result.itemsClassified ∧
      (analyze oracle d now th (Except.ok pending) skipAlerts).result.clustersCreated =
        (analyze oracle d2 now th (Except.ok pending) skipAlerts).result.clustersCreated) := by
  have h1 : maybeAlert (d c.id) now th c = (c, 0, [alertFailMsg c]) := by
    rw [hfail]
    simp [maybeAlert, hga, hsent]
  refine ⟨h1, ?_, ?_⟩
  · intro cs hmem
    rw [alertLoop_errors_flatMap]
    apply List.mem_flatMap.mpr
    exact ⟨c, hmem, by rw [h1]; exact List.mem_singleton_self _⟩
  · intro oracle pending skipAlerts d2
    by_cases hp : pending = [] <;> simp [analyze, hp]

/-- A cluster with aggregate severity 95 whose alert has not been sent. -/
def unsentCluster : Cluster :=
  { initialCluster 1 (mkItem 2 95 0) with aggregate_severity := 95 }

/-- C7 witness: hypotheses discharged on a concrete cluster above a
threshold of 80 with delivery failing. -/
theorem C7_witness :
    maybeAlert false 0 80 unsentCluster = (unsentCluster, 0, [alertFailMsg unsentCluster]) ∧
    alertFailMsg unsentCluster ∈ (alertLoop (fun _ => false) 0 80 [unsentCluster]).2.2 :=
  ⟨(C7_alert_failure_recovery (fun _ => false) 0 80 unsentCluster
      (by norm_num [unsentCluster, initialCluster, mkItem]) rfl rfl).1,
   (C7_alert_failure_recovery (fun _ => false) 0 80 unsentCluster
      (by norm_num [unsentCluster, initialCluster, mkItem]) rfl rfl).2.1
      [unsentCluster] (List.mem_singleton_self _)⟩

-- ===========================================================================
-- C9: trend update
-- ===========================================================================

theorem foldl_add_map (f : Item → ℚ) (l : List Item) :
    ∀ a : ℚ, l.foldl (fun s i => s + f i) a = a + (l.map f).sum := by
  induction l with
  | nil => intro a; simp
  | cons x xs ih =>
      intro a
      rw [List.foldl_cons, ih (a + f x), List.map_cons, List.sum_cons]
      ring

/-- Mean severity of a list of items (the claim's per-half mean). -/
def meanSev (l : List Item) : ℚ := (l.map (·.normalized_severity)).sum / (l.length : ℚ)

theorem updateTrend_eq (items : List Item) (t : Trend) (h : ¬ items.length < 5) :
    updateTrend items t =
      (if meanSev (items.take (items.length / 2)) -
          meanSev (items.drop (items.length / 2)) > 10 then Trend.rising
       else if meanSev (items.take (items.length / 2)) -
          meanSev (items.drop (items.length / 2)) < -10 then Trend.declining
       else Trend.stable) := by
  rw [updateTrend, if_neg h]
  simp only [foldl_add_map, zero_add]
  rfl

/-- C9: for a cluster whose members (fetched sorted by recency descending)
number at least 5, the trend update gives the recent half ⌊n/2⌋ items and
the older half the rest, and sets the trend to rising iff the recent mean
exceeds the older mean by more than 10, declining iff it is lower by more
than 10, and stable otherwise; with fewer than 5 items the existing trend is
kept. -/
theorem C9_trend_update (items : List Item) (t : Trend)
    (hs : items.Pairwise (fun a b => b.created_at ≤ a.created_at)) :
    (items.length < 5 → updateTrend items t = t) ∧
    (5 ≤ items.length →
      ((updateTrend items t = Trend.rising ↔
         meanSev (items.take (items.length / 2)) >
           meanSev (items.drop (items.length / 2)) + 10) ∧
       (updateTrend items t = Trend.declining ↔
         meanSev (items.take (items.length / 2)) <
           meanSev (items.drop (items.length / 2)) - 10) ∧
       (updateTrend items t = Trend.stable ↔
         meanSev (items.take (items.length / 2)) -
           meanSev (items.drop (items.length / 2)) ≤ 10 ∧
         -(10:ℚ) ≤ meanSev (items.take (items.length / 2)) -
           meanSev (items.drop (items.length / 2))))) ∧
    (items.take (items.length / 2)).length = items.length / 2 ∧
    (items.drop (items.length / 2)).length = items.length - items.length / 2 := by
  refine ⟨?_, ?_, ?_, List.length_drop _ _⟩
  · intro h
    rw [updateTrend, if_pos h]
  · intro h
    have hn : ¬ items.length < 5 := not_lt.mpr h
    rw [updateTrend_eq items t hn]
    split_ifs with h1 h2 <;>
      refine ⟨?_, ?_, ?_⟩ <;> constructor <;> intro hx <;>
        first
          | rfl
          | linarith
          | (exact absurd hx (by decide))
          | (exact ⟨by linarith, by linarith⟩)
  · rw [List.length_take]
    exact min_eq_left (Nat.div_le_self _ _)

/-- Six items sorted by recency descending: the three most recent have
severity 70, the three older ones 55 (difference 15 > 10). -/
def C9exItems : List Item :=
  [mkItem 1 70 6, mkItem 2 70 5, mkItem 3 70 4,
   mkItem 4 55 3, mkItem 5 55 2, mkItem 6 55 1]

/-- C9 witness: sortedness and the ≥5 hypothesis discharged on the concrete
6-item history, yielding a rising trend. -/
theorem C9_witness :
    List.Pairwise (fun a b : Item => b.created_at ≤ a.created_at) C9exItems ∧
    5 ≤ C9exItems.length ∧
    updateTrend C9exItems Trend.stable = Trend.rising :=
  ⟨by decide, by decide,
   ((C9_trend_update C9exItems Trend.stable (by decide)).2.1 (by decide)).1.mpr
     (by norm_num [C9exItems, mkItem, meanSev])⟩

-- ===========================================================================
-- C6: classification batch isolation
-- ===========================================================================

/-- The outcome of one batch: the external call either throws (batch kept
unchanged, nothing classified) or returns a result array applied
positionally. -/
def chunkRes (oracle : ℕ → Option (List ClassificationResult)) (idx : ℕ)
    (chunk : List Item) : List Item × List Item :=
  match oracle idx with
  | some results => classifyChunk chunk results
  | none => (chunk, [])

theorem classifyLoop_nil (oracle : ℕ → Option (List ClassificationResult))
    (idx fuel : ℕ) : classifyLoop oracle idx fuel [] = ([], []) := by
  cases fuel <;> rfl

theorem classifyLoop_fuel (oracle : ℕ → Option (List ClassificationResult)) :
    ∀ (n : ℕ) (items : List Item) (idx f1 f2 : ℕ),
      items.length ≤ n → items.length ≤ f1 → items.length ≤ f2 →
      classifyLoop oracle idx f1 items = classifyLoop oracle idx f2 items := by
  intro n
  induction n with
  | zero =>
      intro items idx f1 f2 hn _ _
      have : items = [] := List.eq_nil_of_length_eq_zero (Nat.le_zero.mp hn)
      subst this
      rw [classifyLoop_nil, classifyLoop_nil]
  | succ n ih =>
      intro items idx f1 f2 hn hf1 hf2
      match items, f1, f2 with
      | [], _, _ => rw [classifyLoop_nil, classifyLoop_nil]
      | it :: its, 0, _ => simp at hf1
      | it :: its, _ + 1, 0 => simp at hf2
      | it :: its, a + 1, b + 1 =>
          simp only [classifyLoop]
          have hlen : ((it :: its).drop 10).length ≤ n := by
            simp only [List.length_drop, List.length_cons] at *
            omega
          have ha : ((it :: its).drop 10).length ≤ a := by
            simp only [List.length_drop, List.length_cons] at *
            omega
          have hb : ((it :: its).drop 10).length ≤ b := by
            simp only [List.length_drop, List.length_cons] at *
            omega
          rw [ih ((it :: its).drop 10) (idx + 1) a b hlen ha hb]

/-- Runs `classifyLoop` at exactly the fuel `classifyItems` supplies. -/
def classifyRun (oracle : ℕ → Option (List ClassificationResult)) (idx : ℕ)
    (items : List Item) : List Item × List Item :=
  classifyLoop oracle idx items.length items

theorem classifyItems_eq_run (oracle : ℕ → Option (List ClassificationResult))
    (items : List Item) : classifyItems oracle items = classifyRun oracle 0 items := rfl

theorem classifyRun_chunk (oracle : ℕ → Option (List ClassificationResult))
    (idx : ℕ) (c rest : List Item) (h : c.length = 10) :
    classifyRun oracle idx (c ++ rest) =
      ((chunkRes oracle idx c).1 ++ (classifyRun oracle (idx + 1) rest).1,
       (chunkRes oracle idx c).2 ++ (classifyRun oracle (idx + 1) rest).2) := by
  match c with
  | [] => simp at h
  | x :: xs =>
      have hlen : ((x :: xs) ++ rest).length = (9 + rest.length) + 1 := by
        simp only [List.length_append, List.length_cons] at *
        omega
      rw [classifyRun, hlen]
      show classifyLoop oracle idx ((9 + rest.length) + 1) (x :: (xs ++ rest)) = _
      simp only [classifyLoop]
      have htake : (x :: (xs ++ rest)).take 10 = x :: xs := by
        rw [show (x :: (xs ++ rest)) = (x :: xs) ++ rest from rfl]
        exact List.take_left' h
      have hdrop : (x :: (xs ++ rest)).drop 10 = rest := by
        rw [show (x :: (xs ++ rest)) = (x :: xs) ++ rest from rfl]
        exact List.drop_left' h
      rw [htake, hdrop]
      have hfuel : classifyLoop oracle (idx + 1) (9 + rest.length) rest =
          classifyRun oracle (idx + 1) rest := by
        rw [classifyRun]
        exact classifyLoop_fuel oracle rest.length rest (idx + 1) _ _ (le_refl _)
          (by omega) (le_refl _)
      rw [hfuel]
      simp only [chunkRes]

theorem classifyRun_last (oracle : ℕ → Option (List ClassificationResult))
    (idx : ℕ) (c : List Item) (h1 : c ≠ []) (h2 : c.length ≤ 10) :
    classifyRun oracle idx c = chunkRes oracle idx c := by
  match c with
  | [] => exact absurd rfl h1
  | x :: xs =>
      rw [classifyRun]
      show classifyLoop oracle idx (xs.length + 1) (x :: xs) = _
      simp only [classifyLoop]
      have htake : (x :: xs).take 10 = x :: xs :=
        List.take_of_length_le h2
      have hdrop : (x :: xs).drop 10 = [] :=
        List.drop_eq_nil_of_le h2
      rw [htake, hdrop, classifyLoop_nil]
      simp only [chunkRes]
      cases oracle idx <;> simp

/-- C6 (amended): when the classification call for batch 2 of 3 fails, its
items pass through the stage untouched (so their `feedback_type` stays as it
was, `unknown` for unclassified items) and are not recorded as classified,
batches 1 and 3 are still processed, and the run reports `success = true`;
the failure is only logged — it is NOT recorded in the run's `errors[]`
list, which stays empty. -/
theorem C6_batch_isolation_amended (oracle : ℕ → Option (List ClassificationResult))
    (d : ℕ → Bool) (now th : ℚ) (c1 c2 c3 : List Item)
    (h1 : c1.length = 10) (h2 : c2.length = 10) (h3 : c3 ≠ []) (h3l : c3.length ≤ 10)
    (hfail : oracle 1 = none) :
    (classifyItems oracle (c1 ++ c2 ++ c3)).1 =
      (chunkRes oracle 0 c1).1 ++ c2 ++ (chunkRes oracle 2 c3).1 ∧
    (classifyItems oracle (c1 ++ c2 ++ c3)).2 =
      (chunkRes oracle 0 c1).2 ++ (chunkRes oracle 2 c3).2 ∧
    (analyze oracle d now th (Except.ok (c1 ++ c2 ++ c3)) true).result.success = true ∧
    (analyze oracle d now th (Except.ok (c1 ++ c2 ++ c3)) true).result.errors = [] ∧
    (analyze oracle d now th (Except.ok (c1 ++ c2 ++ c3)) true).result.itemsClassified =
      (chunkRes oracle 0 c1).2.length + (chunkRes oracle 2 c3).2.length := by
  have hd : classifyItems oracle (c1 ++ c2 ++ c3) =
      ((chunkRes oracle 0 c1).1 ++ c2 ++ (chunkRes oracle 2 c3).1,
       (chunkRes oracle 0 c1).2 ++ (chunkRes oracle 2 c3).2) := by
    rw [classifyItems_eq_run, List.append_assoc, classifyRun_chunk oracle 0 c1 (c2 ++ c3) h1,
      classifyRun_chunk oracle 1 c2 c3 h2, classifyRun_last oracle 2 c3 h3 h3l]
    have hmid : chunkRes oracle 1 c2 = (c2, []) := by
      rw [chunkRes, hfail]
    rw [hmid]
    simp [List.append_assoc]
  have hne : c1 ++ c2 ++ c3 ≠ [] := by
    intro hcon
    have : c1 = [] := by
      rcases List.append_eq_nil.mp hcon with ⟨h12, -⟩
      exact (List.append_eq_nil.mp h12).1
    rw [this] at h1
    simp at h1
  refine ⟨by rw [hd], by rw [hd], ?_, ?_, ?_⟩
  · simp only [analyze]
    rw [if_neg hne]
  · simp only [analyze]
    rw [if_neg hne]
    simp
  · simp only [analyze]
    rw [if_neg hne]
    show (classifyItems oracle (c1 ++ c2 ++ c3)).2.length = _
    rw [hd]
    simp [List.length_append]

/-- Twenty-one pending items of severity 60: three classification batches of sizes
10, 10 and 1. -/
def C6exItems : List Item := (List.range 21).map (fun k => mkItem k 60 (k : ℚ))

/-- A classification result with technical severity 0 (severity untouched). -/
def C6exCls : ClassificationResult :=
  { feedback_type := FeedbackType.bug, sentiment_score := 0,
    technical_severity := 0, keywords := [], summary := "" }

/-- A classifier that throws exactly on batch 2 (index 1). -/
def C6exOracle : ℕ → Option (List ClassificationResult) :=
  fun b => if b = 1 then none else some (List.replicate 10 C6exCls)

/-- C6 counterexample: in a run whose second classification batch fails, the
run's `errors[]` list is empty — the failure is NOT recorded in it, refuting
that part of the claim — while batches 1 and 3 are classified (11 items),
batch 2 keeps `feedback_type = unknown`, and `success = true`. -/
theorem C6_counterexample :
    C6exOracle 1 = none ∧
    (analyze C6exOracle (fun _ => true) 0 80 (Except.ok C6exItems) true).result.success = true ∧
    (analyze C6exOracle (fun _ => true) 0 80 (Except.ok C6exItems) true).result.errors = [] ∧
    (analyze C6exOracle (fun _ => true) 0 80
      (Except.ok C6exItems) true).result.itemsClassified = 11 ∧
    (analyze C6exOracle (fun _ => true) 0 80
        (Except.ok C6exItems) true).itemsAfterClassify.map (·.feedback_type) =
      List.replicate 10 FeedbackType.bug ++ List.replicate 10 FeedbackType.unknown ++
        [FeedbackType.bug] := by
  decide

/-- First batch of ten pending items. -/
def C6wc1 : List Item := (List.range 10).map (fun k => mkItem k 60 (k : ℚ))

/-- Second batch of ten pending items. -/
def C6wc2 : List Item := (List.range 10).map (fun k => mkItem (10 + k) 60 ((10 + k : ℕ) : ℚ))

/-- Third batch of one pending item. -/
def C6wc3 : List Item := [mkItem 20 60 20]

/-- C6 witness: the batch-shape hypotheses discharged on concrete batches of
sizes 10, 10 and 1 with the classifier failing on batch 2. -/
theorem C6_witness :
    C6wc1.length = 10 ∧ C6wc2.length = 10 ∧ C6wc3 ≠ [] ∧ C6wc3.length ≤ 10 ∧
    C6exOracle 1 = none ∧
    (analyze C6exOracle (fun _ => true) 0 80
      (Except.ok (C6wc1 ++ C6wc2 ++ C6wc3)) true).result.success = true ∧
    (analyze C6exOracle (fun _ => true) 0 80
      (Except.ok (C6wc1 ++ C6wc2 ++ C6wc3)) true).result.errors = [] :=
  ⟨by decide, by decide, by decide, by decide, by decide,
   (C6_batch_isolation_amended C6exOracle (fun _ => true) 0 80 C6wc1 C6wc2 C6wc3
      (by decide) (by decide) (by decide) (by decide) (by decide)).2.2.1,
   (C6_batch_isolation_amended C6exOracle (fun _ => true) 0 80 C6wc1 C6wc2 C6wc3
      (by decide) (by decide) (by decide) (by decide) (by decide)).2.2.2.1⟩

end HackTheStack
